import Mathlib

/-!
Shallow embedding of the policy-evaluator core (src/policy_evaluator.rs and
src/policy_tracing.rs) together with the collaborators those files use.

Modelling conventions:
* JSON values (serde_json::Value) are the inductive `Json` below; numbers are
  collapsed to `Int` (no claim depends on numeric contents).
* Byte payloads crossing the sandbox boundary are modelled as `String`.
* The process-wide POLICY_MAPPING (RwLock<HashMap<u64, Policy>>) is the
  functional map `Registry`; HashMap.insert is functional overwrite.
* External collaborators that are libraries outside this repository
  (serde_json serialization, the waPC transport, the SDK response parsers)
  enter as explicit oracle parameters of the functions that call them, so a
  theorem can quantify over their possible behaviours.
* Parts of this repository that are referenced but not under src/
  (crate::policy::Policy, crate::validation_response::ValidationResponse,
  crate::cluster_context::ClusterContext) are modelled from the spec; their
  doc comments say so.
* Tracing spans are diagnostic-only and are dropped, except that emitted
  diagnostics of the dispatcher are tracked explicitly, and the log bridge
  returns the event it would emit.
* String literals in error messages are kept as in the source, except that
  quote characters inside the Rust literals are dropped.
-/

namespace PolicyEval

/-- JSON values, the model of serde_json::Value. -/
inductive Json where
  | null : Json
  | bool : Bool → Json
  | num : Int → Json
  | str : String → Json
  | arr : List Json → Json
  | obj : List (String × Json) → Json

/-- Field access on a JSON value: serde_json Value.get, which returns the
field of an object and nothing on any non-object. -/
def Json.get (j : Json) (key : String) : Option Json :=
  match j with
  | .obj fields => fields.lookup key
  | _ => none

/-- Modelled from the spec: the Policy Context (crate::policy::Policy, a file
of this repository that is not under src/). Section 3 of the spec gives its
fields: the sandbox handle, the optional settings map, the diagnostic scope
(dropped here) and the mutable request correlation id. The field names follow
the uses in src/policy_evaluator.rs and src/policy_tracing.rs. -/
structure Policy where
  wapc_policy_id : Nat
  settings : Option (List (String × Json))
  request_uid : Option String

/-- The process-wide POLICY_MAPPING: handle to Policy Context. -/
abbrev Registry := Nat → Option Policy

/-- HashMap.insert: functional overwrite of one handle. -/
def Registry.insert (r : Registry) (k : Nat) (p : Policy) : Registry :=
  fun h => if h = k then some p else r h

/-! ## Log bridge (src/policy_tracing.rs) -/

/-- The five guest log levels (enum PolicyLogEntryLevel). -/
inductive PolicyLogEntryLevel where
  | trace
  | debug
  | info
  | warning
  | error
deriving DecidableEq

/-- String to_uppercase, written through the character list so that it
reduces in the kernel; on ASCII this agrees with both Lean String.toUpper and
the Rust str::to_uppercase the source calls. -/
def upper (s : String) : String := String.mk (s.data.map Char.toUpper)

/-- The custom Deserialize impl for PolicyLogEntryLevel: uppercase the string
and match it against the five level names. -/
def PolicyLogEntryLevel.ofString (s : String) : Except String PolicyLogEntryLevel :=
  match upper s with
  | "TRACE" => .ok .trace
  | "DEBUG" => .ok .debug
  | "INFO" => .ok .info
  | "WARNING" => .ok .warning
  | "ERROR" => .ok .error
  | _ => .error ("unknown log level " ++ s)

/-- struct PolicyLogEntry: level, optional message, and the remaining fields
collected by serde flatten. serde deserializes the flattened Option map as
Some even when no extra fields remain, which is why the source can unwrap it. -/
structure PolicyLogEntry where
  level : PolicyLogEntryLevel
  message : Option String
  data : Option (List (String × Json))

/-- serde deserialization of the message field: Option String accepts an
absent field or null as none and a string as some; any other value is a type
error. -/
def decodeMessageField : Option Json → Except String (Option String)
  | Option.none => .ok none
  | some .null => .ok none
  | some (.str s) => .ok (some s)
  | some _ => .error "invalid type for field message"

/-- serde deserialization of PolicyLogEntry from an already-parsed JSON value
(serde_json::from_slice parses the bytes and then deserializes the value; the
byte-level JSON parse is the external serde library). -/
def PolicyLogEntry.decode : Json → Except String PolicyLogEntry
  | .obj fields =>
    match fields.lookup "level" with
    | Option.none => .error "missing field level"
    | some levelJson =>
      match levelJson with
      | .str s =>
        match PolicyLogEntryLevel.ofString s with
        | .error e => .error e
        | .ok level =>
          match decodeMessageField (fields.lookup "message") with
          | .error e => .error e
          | .ok message =>
            .ok { level := level
                  message := message
                  data := some (fields.filter
                    (fun kv => !(kv.1 == "level" || kv.1 == "message"))) }
      | _ => .error "invalid type for field level"
  | _ => .error "invalid type: payload is not a JSON object"

/-- The diagnostic event Policy::log emits: severity, message (empty when
absent), the request correlation id recorded on the span, and the flattened
extra fields serialized onto the span. -/
structure LogEvent where
  level : PolicyLogEntryLevel
  message : String
  request_uid : Option String
  data : List (String × Json)

/-- Policy::log (src/policy_tracing.rs lines 42-87): decode the payload as a
PolicyLogEntry, then emit one event at the mapped severity carrying the
message (empty string when absent) and the request uid. The source unwraps
entry.data; decode always produces some, so getD is equivalent. -/
def Policy.log (self : Policy) (contents : Json) : Except String LogEvent :=
  match PolicyLogEntry.decode contents with
  | .error e => .error e
  | .ok entry =>
    .ok { level := entry.level
          message := entry.message.getD ""
          request_uid := self.request_uid
          data := entry.data.getD [] }

/-! ## Host callback dispatcher (src/policy_evaluator.rs lines 41-92) -/

/-- Modelled from the spec: the cluster-state provider
(crate::cluster_context::ClusterContext, outside src/), a process-global
accessor exposing three pre-serialized snapshots that this core only
forwards. -/
structure ClusterContext where
  ingresses : String
  namespaces : String
  services : String

/-- The observable outcome of one host_callback invocation: Ok bytes back to
the guest, an error back to the guest, or a host panic (the unwrap on a
missing registry entry). -/
inductive CallbackOutcome where
  | success (payload : String)
  | failure (message : String)
  | panicked
deriving DecidableEq

/-- One host_callback invocation: its outcome plus the host-side diagnostics
it emitted via the error macro. -/
structure CallbackResult where
  outcome : CallbackOutcome
  diagnostics : List String

/-- host_callback: route by (binding, namespace, operation). The cluster
state provider and the registry are passed explicitly; in the source both are
process globals. The payload is the guest bytes, already JSON-parsed for the
log route (the parse itself is the external serde library). -/
def host_callback (cluster : ClusterContext) (registry : Registry)
    (policy_id : Nat) (binding ns op : String) (payload : Json) :
    CallbackResult :=
  match binding with
  | "kubewarden" =>
    match ns with
    | "tracing" =>
      match op with
      | "log" =>
        match registry policy_id with
        | Option.none => { outcome := .panicked, diagnostics := [] }
        | some policy =>
          match policy.log payload with
          | .error e =>
            { outcome := .success ""
              diagnostics := ["Cannot log event: " ++ e] }
          | .ok _ => { outcome := .success "", diagnostics := [] }
      | _ =>
        { outcome := .failure ("unknown operation: " ++ op)
          diagnostics := ["unknown operation: " ++ op] }
    | _ =>
      { outcome := .failure ("unknown namespace: " ++ ns)
        diagnostics := ["unknown namespace: " ++ ns] }
  | "kubernetes" =>
    match ns with
    | "ingresses" => { outcome := .success cluster.ingresses, diagnostics := [] }
    | "namespaces" => { outcome := .success cluster.namespaces, diagnostics := [] }
    | "services" => { outcome := .success cluster.services, diagnostics := [] }
    | _ =>
      { outcome := .failure ("unknown namespace: " ++ ns)
        diagnostics := ["unknown namespace: " ++ ns] }
  | _ =>
    { outcome := .failure ("unknown binding: " ++ binding)
      diagnostics := ["unknown binding: " ++ binding] }

/-! ## Policy evaluator facade (src/policy_evaluator.rs lines 94-292) -/

/-- Modelled from the spec: the response shaper
(crate::validation_response::ValidationResponse, outside src/). Per section 6
it provides a generic rejection with a caller-supplied HTTP-style status code,
an internal-error rejection, and the shaping of a correlation id, the request
object and a parsed guest verdict into the final decision; the shaped case is
kept abstract as its correlation id plus an opaque payload. -/
inductive ValidationResponse where
  | reject (uid message : String) (code : Nat)
  | rejectInternalServerError (uid message : String)
  | shaped (uid : String) (details : Json)

/-- The correlation id carried by a response. -/
def ValidationResponse.uidOf : ValidationResponse → String
  | .reject u _ _ => u
  | .rejectInternalServerError u _ => u
  | .shaped u _ => u

/-- struct ValidateRequest: a newtype over the inbound admission JSON. -/
abbrev ValidateRequest := Json

/-- ValidateRequest::uid (src/policy_evaluator.rs lines 32-38): the uid
string field of the request, or the empty string when the field is missing or
not a string. -/
def ValidateRequest.uid (r : ValidateRequest) : String :=
  match Json.get r "uid" with
  | some (.str s) => s
  | _ => ""

/-- The evaluator facade. The wapc host (the sandbox instance) is external;
each method takes the transport as an oracle parameter, so only the Policy
Context is state here. -/
structure PolicyEvaluator where
  policy : Policy

/-- The value serialized for the validate call:
json of request and settings, with settings defaulted to the empty object
when none were configured (policy.settings.unwrap_or_default()). -/
def validateParams (request : ValidateRequest) (policy : Policy) : Json :=
  .obj [("request", request), ("settings", .obj (policy.settings.getD []))]

/-- What one validate call produced: the response, the registry after the
call, and whether the sandbox validate export was invoked. -/
structure ValidateOutcome where
  response : ValidationResponse
  registry : Registry
  guestInvoked : Bool

/-- PolicyEvaluator::validate (src/policy_evaluator.rs lines 165-236).
Oracles: ser is serde_json::to_string, hostCall is the waPC transport
(wapc_host.call), parseResponse is serde_json::from_slice into the SDK
PolicyValidationResponse (type PVR, opaque here), shapeResponse is
ValidationResponse::from_policy_validation_response. Steps, in source order:
extract the uid; overwrite request_uid and re-insert the context under the
same handle; require the object field (else reject with status 400, the
hyper BAD_REQUEST code); serialize the params (else internal error);
invoke the sandbox (transport error is an internal error); parse and shape
the verdict (either failure is an internal error). -/
def PolicyEvaluator.validate {V : Type}
    (ser : Json → Except String String)
    (hostCall : String → String → Except String String)
    (parseResponse : String → Except String V)
    (shapeResponse : String → Json → V → Except String ValidationResponse)
    (self : PolicyEvaluator) (registry : Registry) (request : ValidateRequest) :
    ValidateOutcome :=
  let uid := ValidateRequest.uid request
  let policy : Policy := { self.policy with request_uid := some uid }
  let registry1 := registry.insert self.policy.wapc_policy_id policy
  match Json.get request "object" with
  | Option.none =>
    { response := .reject uid "request does not have an object value" 400
      registry := registry1
      guestInvoked := false }
  | some req_obj =>
    match ser (validateParams request policy) with
    | .error e =>
      { response := .rejectInternalServerError uid e
        registry := registry1
        guestInvoked := false }
    | .ok validate_str =>
      match hostCall "validate" validate_str with
      | .ok res =>
        match ((parseResponse res).mapError
            (fun e => "cannot deserialize policy validation response: " ++ e)).bind
            (shapeResponse uid req_obj) with
        | .ok vr =>
          { response := vr, registry := registry1, guestInvoked := true }
        | .error e =>
          { response := .rejectInternalServerError uid e
            registry := registry1
            guestInvoked := true }
      | .error e =>
        { response := .rejectInternalServerError uid e
          registry := registry1
          guestInvoked := true }

/-- The SDK SettingsValidationResponse: guest-reported validity and optional
message. -/
structure SettingsValidationResponse where
  valid : Bool
  message : Option String
deriving DecidableEq

/-- The settings payload sent to the guest: the serialized configured
settings, an empty JSON object when none were configured, or the early-return
response when serialization fails (src/policy_evaluator.rs lines 239-253). -/
def PolicyEvaluator.settings_payload
    (ser : List (String × Json) → Except String String)
    (self : PolicyEvaluator) : Except SettingsValidationResponse String :=
  match self.policy.settings with
  | some settings =>
    match ser settings with
    | .ok s => .ok s
    | .error e =>
      .error { valid := false
               message := some ("Cannot serialize validation params: " ++ e) }
  | Option.none => .ok "\x7b\x7d"

/-- PolicyEvaluator::validate_settings (src/policy_evaluator.rs lines
238-275): build the settings payload, invoke the sandbox validate_settings
export, parse the reply; every serialization, transport or parse failure
becomes valid := false with a diagnostic message, a parsed reply is returned
verbatim. -/
def PolicyEvaluator.validate_settings
    (ser : List (String × Json) → Except String String)
    (hostCall : String → String → Except String String)
    (parseSettingsResponse : String → Except String SettingsValidationResponse)
    (self : PolicyEvaluator) : SettingsValidationResponse :=
  match self.settings_payload ser with
  | .error resp => resp
  | .ok settings_str =>
    match hostCall "validate_settings" settings_str with
    | .ok res =>
      match (parseSettingsResponse res).mapError
          (fun e => "cannot convert response: " ++ e) with
      | .ok vr => vr
      | .error e => { valid := false, message := some ("error: " ++ e) }
    | .error err =>
      { valid := false
        message := some ("Error invoking settings validation callback: " ++ err) }

/-- PolicyEvaluator::protocol_version (src/policy_evaluator.rs lines
277-291): invoke the protocol_version export with an empty payload; parse the
reply via ProtocolVersion::try_from (the SDK, oracle tryFromBytes over the
opaque version type PV); both failures are descriptive errors, there is no
fallback. -/
def PolicyEvaluator.protocol_version {PV : Type}
    (hostCall : String → String → Except String String)
    (tryFromBytes : String → Except String PV)
    (_self : PolicyEvaluator) : Except String PV :=
  match hostCall "protocol_version" "" with
  | .ok res =>
    (tryFromBytes res).mapError
      (fun e => "Cannot create ProtocolVersion object from " ++ res ++ ": " ++ e)
  | .error err =>
    .error ("Cannot invoke protocol_version waPC function: " ++ err)

/-- PolicyEvaluator::from_contents_internal (src/policy_evaluator.rs lines
133-163): obtain the handle from the engine initializer, build the Policy
Context, insert it into the registry; on either failure the registry is
untouched. The bytecode and the span arguments are dropped (the span is
diagnostic, the bytecode is only forwarded to policy_from_contents). -/
def PolicyEvaluator.from_contents_internal
    (engine_initializer : Except String Nat)
    (policy_from_contents :
      Nat → Option (List (String × Json)) → Except String Policy)
    (settings : Option (List (String × Json)))
    (registry : Registry) : Except String Policy × Registry :=
  match engine_initializer with
  | .error e => (.error e, registry)
  | .ok wapc_policy_id =>
    match policy_from_contents wapc_policy_id settings with
    | .error e => (.error e, registry)
    | .ok policy => (.ok policy, registry.insert wapc_policy_id policy)

/-- PolicyEvaluator::validate_settings as a transformer of the process-wide
POLICY_MAPPING: the source body (lines 238-275) contains no POLICY_MAPPING
access, so the registry passes through unchanged. -/
def PolicyEvaluator.validate_settingsS
    (ser : List (String × Json) → Except String String)
    (hostCall : String → String → Except String String)
    (parseSettingsResponse : String → Except String SettingsValidationResponse)
    (self : PolicyEvaluator) (registry : Registry) :
    SettingsValidationResponse × Registry :=
  (self.validate_settings ser hostCall parseSettingsResponse, registry)

/-- PolicyEvaluator::protocol_version as a transformer of the process-wide
POLICY_MAPPING: the source body (lines 277-291) contains no POLICY_MAPPING
access, so the registry passes through unchanged. -/
def PolicyEvaluator.protocol_versionS {PV : Type}
    (hostCall : String → String → Except String String)
    (tryFromBytes : String → Except String PV)
    (self : PolicyEvaluator) (registry : Registry) :
    Except String PV × Registry :=
  (self.protocol_version hostCall tryFromBytes, registry)

/-! ## Helper lemmas -/

theorem Registry.insert_self (r : Registry) (k : Nat) (p : Policy) :
    (r.insert k p) k = some p := by
  simp [Registry.insert]

/-- On every path through validate, the registry after the call is the input
registry with the updated Policy Context inserted under the handle. -/
theorem validate_registry_eq {V : Type}
    (ser : Json → Except String String)
    (hostCall : String → String → Except String String)
    (parseResponse : String → Except String V)
    (shapeResponse : String → Json → V → Except String ValidationResponse)
    (self : PolicyEvaluator) (registry : Registry) (request : ValidateRequest) :
    (self.validate ser hostCall parseResponse shapeResponse registry request).registry =
      registry.insert self.policy.wapc_policy_id
        { self.policy with request_uid := some (ValidateRequest.uid request) } := by
  unfold PolicyEvaluator.validate
  dsimp only
  split
  · rfl
  · split
    · rfl
    · split
      · split <;> rfl
      · rfl

/-! ## Claim theorems -/

/-- Claim C4: for every request without an object field, validate returns a
rejection with status code 400 (bad request) and the sandbox validate export
is never invoked. -/
theorem validate_missing_object_rejects_400 {V : Type}
    (ser : Json → Except String String)
    (hostCall : String → String → Except String String)
    (parseResponse : String → Except String V)
    (shapeResponse : String → Json → V → Except String ValidationResponse)
    (self : PolicyEvaluator) (registry : Registry) (request : ValidateRequest)
    (h : Json.get request "object" = none) :
    (self.validate ser hostCall parseResponse shapeResponse registry request).response =
      .reject (ValidateRequest.uid request)
        "request does not have an object value" 400
    ∧ (self.validate ser hostCall parseResponse shapeResponse registry
        request).guestInvoked = false := by
  unfold PolicyEvaluator.validate
  simp [h]

/-- Witness for C4 at a concrete request with a uid but no object field. -/
theorem validate_missing_object_rejects_400_witness :
    Json.get (Json.obj [("uid", Json.str "u1")]) "object" = none
    ∧ (PolicyEvaluator.validate (V := Unit) (fun _ => .ok "") (fun _ _ => .ok "")
        (fun _ => .ok ()) (fun u o _ => .ok (.shaped u o))
        ⟨⟨1, none, none⟩⟩ (fun _ => none) (Json.obj [("uid", Json.str "u1")])).response =
      .reject "u1" "request does not have an object value" 400 := by
  refine ⟨rfl, ?_⟩
  exact (validate_missing_object_rejects_400 (fun _ => .ok "") (fun _ _ => .ok "")
    (fun _ => .ok ()) (fun u o _ => .ok (.shaped u o))
    ⟨⟨1, none, none⟩⟩ (fun _ => none) (Json.obj [("uid", Json.str "u1")]) rfl).1

/-- Claim C6: on the log route the context lookup succeeds (never the panic
branch) whenever the handle is registered, and a callback for an unregistered
handle hits the panic branch: the code does not degrade gracefully there. -/
theorem log_route_lookup (cluster : ClusterContext) (registry : Registry)
    (pid : Nat) (payload : Json) :
    (∀ policy, registry pid = some policy →
      (host_callback cluster registry pid "kubewarden" "tracing" "log"
        payload).outcome ≠ .panicked)
    ∧ (registry pid = none →
      (host_callback cluster registry pid "kubewarden" "tracing" "log"
        payload).outcome = .panicked) := by
  constructor
  · intro policy h
    unfold host_callback
    simp only [h]
    cases hlog : policy.log payload <;> simp
  · intro h
    unfold host_callback
    simp only [h]

/-- Witness for C6: both branches at concrete registries. -/
theorem log_route_lookup_witness :
    (fun h => if h = 1 then some (⟨1, none, none⟩ : Policy) else none : Registry) 1 =
      some ⟨1, none, none⟩
    ∧ (host_callback ⟨"", "", ""⟩
        (fun h => if h = 1 then some ⟨1, none, none⟩ else none) 1
        "kubewarden" "tracing" "log" (Json.obj [])).outcome ≠ .panicked
    ∧ (fun _ => none : Registry) 1 = none
    ∧ (host_callback ⟨"", "", ""⟩ (fun _ => none) 1
        "kubewarden" "tracing" "log" (Json.obj [])).outcome = .panicked := by
  refine ⟨rfl, ?_, rfl, ?_⟩
  · exact (log_route_lookup ⟨"", "", ""⟩
      (fun h => if h = 1 then some ⟨1, none, none⟩ else none) 1 (Json.obj [])).1
      ⟨1, none, none⟩ rfl
  · exact (log_route_lookup ⟨"", "", ""⟩ (fun _ => none) 1 (Json.obj [])).2 rfl

/-- Claim C3: on the log route with a registered handle, a Log Bridge failure
is reported as one host-side error diagnostic while the guest still receives
success with an empty payload. -/
theorem log_failure_swallowed (cluster : ClusterContext) (registry : Registry)
    (pid : Nat) (policy : Policy) (payload : Json) (e : String)
    (hreg : registry pid = some policy)
    (hlog : policy.log payload = .error e) :
    host_callback cluster registry pid "kubewarden" "tracing" "log" payload =
      { outcome := .success "", diagnostics := ["Cannot log event: " ++ e] } := by
  unfold host_callback
  simp only [hreg, hlog]

/-- Witness for C3 at the payload whose level is bogus. -/
theorem log_failure_swallowed_witness :
    (fun h => if h = 1 then some (⟨1, none, none⟩ : Policy) else none : Registry) 1 =
      some ⟨1, none, none⟩
    ∧ Policy.log ⟨1, none, none⟩ (Json.obj [("level", Json.str "bogus")]) =
      .error "unknown log level bogus"
    ∧ host_callback ⟨"", "", ""⟩
        (fun h => if h = 1 then some ⟨1, none, none⟩ else none) 1
        "kubewarden" "tracing" "log" (Json.obj [("level", Json.str "bogus")]) =
      { outcome := .success ""
        diagnostics := ["Cannot log event: unknown log level bogus"] } := by
  refine ⟨rfl, rfl, ?_⟩
  exact log_failure_swallowed ⟨"", "", ""⟩
    (fun h => if h = 1 then some ⟨1, none, none⟩ else none) 1 ⟨1, none, none⟩
    (Json.obj [("level", Json.str "bogus")]) "unknown log level bogus" rfl rfl

/-- Claim C1: validate re-registers the Policy Context with the overwritten
request correlation id under the same handle on every path, in particular
before the object check, before serialization and before any sandbox
invocation; so when serialization fails the call returns an internal-error
rejection while the registry already holds the updated context. -/
theorem validate_reregisters_before_checks {V : Type}
    (ser : Json → Except String String)
    (hostCall : String → String → Except String String)
    (parseResponse : String → Except String V)
    (shapeResponse : String → Json → V → Except String ValidationResponse)
    (self : PolicyEvaluator) (registry : Registry) (request : ValidateRequest) :
    (self.validate ser hostCall parseResponse shapeResponse registry
        request).registry =
      registry.insert self.policy.wapc_policy_id
        { self.policy with request_uid := some (ValidateRequest.uid request) }
    ∧ (self.validate ser hostCall parseResponse shapeResponse registry
        request).registry self.policy.wapc_policy_id =
      some { self.policy with request_uid := some (ValidateRequest.uid request) }
    ∧ (∀ req_obj e, Json.get request "object" = some req_obj →
        ser (validateParams request
          { self.policy with
            request_uid := some (ValidateRequest.uid request) }) = .error e →
        (self.validate ser hostCall parseResponse shapeResponse registry
            request).response =
          .rejectInternalServerError (ValidateRequest.uid request) e
        ∧ (self.validate ser hostCall parseResponse shapeResponse registry
            request).guestInvoked = false) := by
  refine ⟨validate_registry_eq ser hostCall parseResponse shapeResponse
    self registry request, ?_, ?_⟩
  · rw [validate_registry_eq ser hostCall parseResponse shapeResponse
      self registry request]
    exact Registry.insert_self registry self.policy.wapc_policy_id _
  · intro req_obj e hobj hser
    unfold PolicyEvaluator.validate
    simp [hobj, hser]

/-- Witness for C1: a request that has an object field, with a serializer
that always fails. -/
theorem validate_reregisters_before_checks_witness :
    Json.get (Json.obj [("uid", Json.str "u1"), ("object", Json.null)]) "object" =
      some Json.null
    ∧ (fun _ => Except.error "boom" : Json → Except String String)
        (validateParams (Json.obj [("uid", Json.str "u1"), ("object", Json.null)])
          { wapc_policy_id := 1, settings := none, request_uid := some "u1" }) =
      .error "boom"
    ∧ (PolicyEvaluator.validate (V := Unit) (fun _ => Except.error "boom")
        (fun _ _ => .ok "") (fun _ => .ok ()) (fun u o _ => .ok (.shaped u o))
        ⟨⟨1, none, none⟩⟩ (fun _ => none)
        (Json.obj [("uid", Json.str "u1"), ("object", Json.null)])).response =
      .rejectInternalServerError "u1" "boom"
    ∧ (PolicyEvaluator.validate (V := Unit) (fun _ => Except.error "boom")
        (fun _ _ => .ok "") (fun _ => .ok ()) (fun u o _ => .ok (.shaped u o))
        ⟨⟨1, none, none⟩⟩ (fun _ => none)
        (Json.obj [("uid", Json.str "u1"), ("object", Json.null)])).registry 1 =
      some { wapc_policy_id := 1, settings := none, request_uid := some "u1" } := by
  have h := validate_reregisters_before_checks (V := Unit)
    (fun _ => Except.error "boom") (fun _ _ => .ok "") (fun _ => .ok ())
    (fun u o _ => .ok (.shaped u o)) ⟨⟨1, none, none⟩⟩ (fun _ => none)
    (Json.obj [("uid", Json.str "u1"), ("object", Json.null)])
  exact ⟨rfl, rfl, (h.2.2 Json.null "boom" rfl rfl).1, h.2.1⟩

/-- Claim C5: the correlation id validate extracts is the uid string field of
the request (empty when missing or not a string), and each rejection path of
validate (missing object, serialization failure, transport failure,
verdict parse or shaping failure) carries that correlation id. -/
theorem validate_rejections_carry_uid {V : Type}
    (ser : Json → Except String String)
    (hostCall : String → String → Except String String)
    (parseResponse : String → Except String V)
    (shapeResponse : String → Json → V → Except String ValidationResponse)
    (self : PolicyEvaluator) (registry : Registry) (request : ValidateRequest) :
    (∀ s, Json.get request "uid" = some (.str s) → ValidateRequest.uid request = s)
    ∧ ((∀ s, Json.get request "uid" ≠ some (.str s)) →
        ValidateRequest.uid request = "")
    ∧ (Json.get request "object" = none →
        (self.validate ser hostCall parseResponse shapeResponse registry
            request).response.uidOf = ValidateRequest.uid request)
    ∧ (∀ req_obj e, Json.get request "object" = some req_obj →
        ser (validateParams request
          { self.policy with
            request_uid := some (ValidateRequest.uid request) }) = .error e →
        (self.validate ser hostCall parseResponse shapeResponse registry
            request).response.uidOf = ValidateRequest.uid request)
    ∧ (∀ req_obj vs e, Json.get request "object" = some req_obj →
        ser (validateParams request
          { self.policy with
            request_uid := some (ValidateRequest.uid request) }) = .ok vs →
        hostCall "validate" vs = .error e →
        (self.validate ser hostCall parseResponse shapeResponse registry
            request).response.uidOf = ValidateRequest.uid request)
    ∧ (∀ req_obj vs res e, Json.get request "object" = some req_obj →
        ser (validateParams request
          { self.policy with
            request_uid := some (ValidateRequest.uid request) }) = .ok vs →
        hostCall "validate" vs = .ok res →
        ((parseResponse res).mapError
            (fun e2 => "cannot deserialize policy validation response: " ++ e2)).bind
          (shapeResponse (ValidateRequest.uid request) req_obj) = .error e →
        (self.validate ser hostCall parseResponse shapeResponse registry
            request).response.uidOf = ValidateRequest.uid request) := by
  refine ⟨?_, ?_, ?_, ?_, ?_, ?_⟩
  · intro s h
    unfold ValidateRequest.uid
    simp [h]
  · intro h
    unfold ValidateRequest.uid
    cases hg : Json.get request "uid" with
    | none => rfl
    | some v =>
      cases v with
      | str s => exact absurd hg (h s)
      | null => rfl
      | bool b => rfl
      | num n => rfl
      | arr xs => rfl
      | obj fs => rfl
  · intro h
    unfold PolicyEvaluator.validate
    simp [h, ValidationResponse.uidOf]
  · intro req_obj e hobj hser
    unfold PolicyEvaluator.validate
    simp [hobj, hser, ValidationResponse.uidOf]
  · intro req_obj vs e hobj hser hcall
    unfold PolicyEvaluator.validate
    simp [hobj, hser, hcall, ValidationResponse.uidOf]
  · intro req_obj vs res e hobj hser hcall hparse
    unfold PolicyEvaluator.validate
    simp [hobj, hser, hcall, hparse, ValidationResponse.uidOf]

/-- Witness for C5: a request whose uid field is not a string takes the empty
correlation id, and the missing-object rejection carries it. -/
theorem validate_rejections_carry_uid_witness :
    (∀ s, Json.get (Json.obj [("uid", Json.num 3)]) "uid" ≠ some (.str s))
    ∧ ValidateRequest.uid (Json.obj [("uid", Json.num 3)]) = ""
    ∧ Json.get (Json.obj [("uid", Json.num 3)]) "object" = none
    ∧ (PolicyEvaluator.validate (V := Unit) (fun _ => .ok "") (fun _ _ => .ok "")
        (fun _ => .ok ()) (fun u o _ => .ok (.shaped u o))
        ⟨⟨1, none, none⟩⟩ (fun _ => none)
        (Json.obj [("uid", Json.num 3)])).response.uidOf = "" := by
  have hne : ∀ s, Json.get (Json.obj [("uid", Json.num 3)]) "uid" ≠ some (.str s) := by
    intro s h
    simp [Json.get] at h
  have h := validate_rejections_carry_uid (V := Unit) (fun _ => .ok "")
    (fun _ _ => .ok "") (fun _ => .ok ()) (fun u o _ => .ok (.shaped u o))
    ⟨⟨1, none, none⟩⟩ (fun _ => none) (Json.obj [("uid", Json.num 3)])
  refine ⟨hne, h.2.1 hne, rfl, ?_⟩
  have h3 := h.2.2.1 rfl
  rw [h3, h.2.1 hne]

/-- Claim C2: the dispatcher routes exactly per the table: the three
kubernetes namespaces return the cluster-state provider bytes for any
operation; the kubewarden tracing log route with a registered handle and a
payload the Log Bridge accepts returns success with an empty payload; and
every other triple fails with an error message carrying the unmatched
binding, namespace or operation, emitted also as a diagnostic, and never hits
the panic branch. -/
theorem dispatcher_routing_table :
    (∀ (cluster : ClusterContext) (registry : Registry) (pid : Nat)
        (op : String) (payload : Json),
      host_callback cluster registry pid "kubernetes" "ingresses" op payload =
        { outcome := .success cluster.ingresses, diagnostics := [] }
      ∧ host_callback cluster registry pid "kubernetes" "namespaces" op payload =
        { outcome := .success cluster.namespaces, diagnostics := [] }
      ∧ host_callback cluster registry pid "kubernetes" "services" op payload =
        { outcome := .success cluster.services, diagnostics := [] })
    ∧ (∀ (cluster : ClusterContext) (registry : Registry) (pid : Nat)
        (policy : Policy) (payload : Json) (ev : LogEvent),
      registry pid = some policy → policy.log payload = .ok ev →
      host_callback cluster registry pid "kubewarden" "tracing" "log" payload =
        { outcome := .success "", diagnostics := [] })
    ∧ (∀ (cluster : ClusterContext) (registry : Registry) (pid : Nat)
        (binding ns op : String) (payload : Json),
      ¬(binding = "kubernetes" ∧
          (ns = "ingresses" ∨ ns = "namespaces" ∨ ns = "services")) →
      ¬(binding = "kubewarden" ∧ ns = "tracing" ∧ op = "log") →
      ∃ m, host_callback cluster registry pid binding ns op payload =
          { outcome := .failure m, diagnostics := [m] }
        ∧ (m = "unknown binding: " ++ binding ∨ m = "unknown namespace: " ++ ns ∨
           m = "unknown operation: " ++ op)) := by
  refine ⟨?_, ?_, ?_⟩
  · intro cluster registry pid op payload
    exact ⟨rfl, rfl, rfl⟩
  · intro cluster registry pid policy payload ev hreg hlog
    unfold host_callback
    simp [hreg, hlog]
  · intro cluster registry pid binding ns op payload h1 h2
    by_cases hb1 : binding = "kubewarden"
    · subst hb1
      by_cases hn1 : ns = "tracing"
      · subst hn1
        by_cases ho : op = "log"
        · exact absurd ⟨rfl, rfl, ho⟩ h2
        · refine ⟨"unknown operation: " ++ op, ?_, Or.inr (Or.inr rfl)⟩
          unfold host_callback
          simp [ho]
      · refine ⟨"unknown namespace: " ++ ns, ?_, Or.inr (Or.inl rfl)⟩
        unfold host_callback
        simp [hn1]
    · by_cases hb2 : binding = "kubernetes"
      · subst hb2
        have hn1 : ns ≠ "ingresses" := fun h => h1 ⟨rfl, Or.inl h⟩
        have hn2 : ns ≠ "namespaces" := fun h => h1 ⟨rfl, Or.inr (Or.inl h)⟩
        have hn3 : ns ≠ "services" := fun h => h1 ⟨rfl, Or.inr (Or.inr h)⟩
        refine ⟨"unknown namespace: " ++ ns, ?_, Or.inr (Or.inl rfl)⟩
        unfold host_callback
        simp [hn1, hn2, hn3]
      · refine ⟨"unknown binding: " ++ binding, ?_, Or.inl rfl⟩
        unfold host_callback
        simp [hb1, hb2]

/-- Witness for C2: the log route succeeds on the INFO payload for a
registered handle, and the triple kubernetes pods get is unmatched. -/
theorem dispatcher_routing_table_witness :
    (fun h => if h = 1 then some (⟨1, none, none⟩ : Policy) else none : Registry) 1 =
      some ⟨1, none, none⟩
    ∧ Policy.log ⟨1, none, none⟩
        (Json.obj [("level", Json.str "INFO"), ("message", Json.str "hi")]) =
      .ok { level := .info, message := "hi", request_uid := none, data := [] }
    ∧ host_callback ⟨"", "", ""⟩
        (fun h => if h = 1 then some ⟨1, none, none⟩ else none) 1
        "kubewarden" "tracing" "log"
        (Json.obj [("level", Json.str "INFO"), ("message", Json.str "hi")]) =
      { outcome := .success "", diagnostics := [] }
    ∧ ¬(("kubernetes" : String) = "kubernetes" ∧
        (("pods" : String) = "ingresses" ∨ ("pods" : String) = "namespaces" ∨
         ("pods" : String) = "services"))
    ∧ ¬(("kubernetes" : String) = "kubewarden" ∧ ("pods" : String) = "tracing" ∧
        ("get" : String) = "log")
    ∧ ∃ m, host_callback ⟨"", "", ""⟩ (fun _ => none) 7 "kubernetes" "pods" "get"
          (Json.obj []) =
        { outcome := .failure m, diagnostics := [m] }
      ∧ (m = "unknown binding: " ++ "kubernetes" ∨
         m = "unknown namespace: " ++ "pods" ∨ m = "unknown operation: " ++ "get") := by
  have hp : ¬(("kubernetes" : String) = "kubernetes" ∧
      (("pods" : String) = "ingresses" ∨ ("pods" : String) = "namespaces" ∨
       ("pods" : String) = "services")) := by
    intro h
    rcases h.2 with h2 | h2 | h2 <;> simp at h2
  have hq : ¬(("kubernetes" : String) = "kubewarden" ∧ ("pods" : String) = "tracing" ∧
      ("get" : String) = "log") := by
    intro h
    have := h.1
    simp at this
  refine ⟨rfl, rfl, ?_, hp, hq, ?_⟩
  · exact dispatcher_routing_table.2.1 ⟨"", "", ""⟩
      (fun h => if h = 1 then some ⟨1, none, none⟩ else none) 1 ⟨1, none, none⟩
      (Json.obj [("level", Json.str "INFO"), ("message", Json.str "hi")])
      { level := .info, message := "hi", request_uid := none, data := [] } rfl rfl
  · exact dispatcher_routing_table.2.2 ⟨"", "", ""⟩ (fun _ => none) 7
      "kubernetes" "pods" "get" (Json.obj []) hp hq

/-- The declarative shape of a payload the Log Bridge accepts: a JSON object
whose level field is a string that uppercases to one of the five level names,
and whose message field, when present, is a string or null. -/
def DecodableLogPayload (payload : Json) : Prop :=
  ∃ fields, payload = Json.obj fields
    ∧ (∃ s, fields.lookup "level" = some (.str s) ∧
        (upper s = "TRACE" ∨ upper s = "DEBUG" ∨ upper s = "INFO" ∨
         upper s = "WARNING" ∨ upper s = "ERROR"))
    ∧ (fields.lookup "message" = none ∨ fields.lookup "message" = some .null ∨
       ∃ m, fields.lookup "message" = some (.str m))

theorem ofString_ok_levels (s : String) (l : PolicyLogEntryLevel)
    (h : PolicyLogEntryLevel.ofString s = .ok l) :
    upper s = "TRACE" ∨ upper s = "DEBUG" ∨ upper s = "INFO" ∨
    upper s = "WARNING" ∨ upper s = "ERROR" := by
  unfold PolicyLogEntryLevel.ofString at h
  split at h
  · exact Or.inl (by assumption)
  · exact Or.inr (Or.inl (by assumption))
  · exact Or.inr (Or.inr (Or.inl (by assumption)))
  · exact Or.inr (Or.inr (Or.inr (Or.inl (by assumption))))
  · exact Or.inr (Or.inr (Or.inr (Or.inr (by assumption))))
  · cases h

theorem ofString_ok_of_levels (s : String)
    (h : upper s = "TRACE" ∨ upper s = "DEBUG" ∨ upper s = "INFO" ∨
      upper s = "WARNING" ∨ upper s = "ERROR") :
    ∃ l, PolicyLogEntryLevel.ofString s = .ok l := by
  unfold PolicyLogEntryLevel.ofString
  rcases h with h | h | h | h | h <;> rw [h] <;> exact ⟨_, rfl⟩

/-- Claim C7 counterexample: a payload whose level field is the valid level
INFO but whose message field is a number fails to decode, so a valid level is
not sufficient for a successful decode. -/
theorem log_decode_not_level_only :
    PolicyLogEntry.decode
        (Json.obj [("level", Json.str "INFO"), ("message", Json.num 42)]) =
      .error "invalid type for field message"
    ∧ Json.get (Json.obj [("level", Json.str "INFO"), ("message", Json.num 42)])
        "level" = some (.str "INFO")
    ∧ upper "INFO" = "INFO" := by
  exact ⟨rfl, rfl, rfl⟩

/-- Claim C7 (amended): the Log Bridge decodes a payload successfully exactly
when it is a JSON object whose level field, compared case-insensitively, is
one of the five level names and whose message field, when present, is a
string or null; on success the emitted message is the message string of the
payload, the empty string when the field is absent or null. -/
theorem log_decode_spec (payload : Json) (policy : Policy) :
    ((∃ entry, PolicyLogEntry.decode payload = .ok entry) ↔
      DecodableLogPayload payload)
    ∧ (∀ ev, policy.log payload = .ok ev →
        ev.message = match Json.get payload "message" with
          | some (.str s) => s
          | _ => "") := by
  constructor
  · constructor
    · rintro ⟨entry, h⟩
      unfold PolicyLogEntry.decode at h
      split at h
      case _ fields =>
        split at h
        · cases h
        case _ levelJson hl =>
          split at h
          case _ s =>
            split at h
            · cases h
            case _ level ho =>
              split at h
              · cases h
              case _ message hm =>
                refine ⟨fields, rfl, ⟨s, hl, ofString_ok_levels s level ho⟩, ?_⟩
                unfold decodeMessageField at hm
                split at hm
                · exact Or.inl (by assumption)
                · exact Or.inr (Or.inl (by assumption))
                · exact Or.inr (Or.inr ⟨_, by assumption⟩)
                · cases hm
          · cases h
      · cases h
    · rintro ⟨fields, rfl, ⟨s, hl, hs⟩, hm⟩
      obtain ⟨l, hok⟩ := ofString_ok_of_levels s hs
      unfold PolicyLogEntry.decode
      dsimp only
      rw [hl]
      dsimp only
      rw [hok]
      rcases hm with hm | hm | ⟨m, hm⟩ <;>
        rw [hm] <;> exact ⟨_, rfl⟩
  · intro ev hev
    unfold Policy.log at hev
    split at hev
    · cases hev
    case _ entry hdec =>
      cases hev
      unfold PolicyLogEntry.decode at hdec
      split at hdec
      case _ fields =>
        split at hdec
        · cases hdec
        case _ levelJson hl =>
          split at hdec
          case _ s =>
            split at hdec
            · cases hdec
            case _ level ho =>
              split at hdec
              · cases hdec
              case _ message hm =>
                cases hdec
                unfold decodeMessageField at hm
                split at hm <;> rename_i hmf
                · cases hm
                  simp [Json.get, hmf]
                · cases hm
                  simp [Json.get, hmf]
                · cases hm
                  simp [Json.get, hmf]
                · cases hm
          · cases hdec
      · cases hdec

/-- Witness for C7 at the INFO payload with message hi. -/
theorem log_decode_spec_witness :
    Policy.log ⟨1, none, none⟩
        (Json.obj [("level", Json.str "INFO"), ("message", Json.str "hi")]) =
      .ok { level := .info, message := "hi", request_uid := none, data := [] }
    ∧ ({ level := .info, message := "hi", request_uid := none,
         data := [] } : LogEvent).message = "hi"
    ∧ DecodableLogPayload
        (Json.obj [("level", Json.str "INFO"), ("message", Json.str "hi")]) := by
  have h := log_decode_spec
    (Json.obj [("level", Json.str "INFO"), ("message", Json.str "hi")])
    ⟨1, none, none⟩
  refine ⟨rfl, ?_, ?_⟩
  · exact h.2 { level := .info, message := "hi", request_uid := none, data := [] } rfl
  · exact h.1.mp ⟨{ level := .info, message := some "hi", data := some [] }, rfl⟩

/-- Claim C8: validate_settings sends the serialized settings, or the empty
object when none were configured; every serialization, transport or
deserialization failure yields valid false with a diagnostic message; a
parsed guest reply is returned verbatim. -/
theorem validate_settings_spec
    (ser : List (String × Json) → Except String String)
    (hostCall : String → String → Except String String)
    (parseSettingsResponse : String → Except String SettingsValidationResponse)
    (self : PolicyEvaluator) :
    (self.policy.settings = none → self.settings_payload ser = .ok "\x7b\x7d")
    ∧ (∀ settings e, self.policy.settings = some settings → ser settings = .error e →
        self.validate_settings ser hostCall parseSettingsResponse =
          { valid := false
            message := some ("Cannot serialize validation params: " ++ e) })
    ∧ (∀ sstr err, self.settings_payload ser = .ok sstr →
        hostCall "validate_settings" sstr = .error err →
        self.validate_settings ser hostCall parseSettingsResponse =
          { valid := false
            message := some ("Error invoking settings validation callback: " ++ err) })
    ∧ (∀ sstr res e, self.settings_payload ser = .ok sstr →
        hostCall "validate_settings" sstr = .ok res →
        parseSettingsResponse res = .error e →
        self.validate_settings ser hostCall parseSettingsResponse =
          { valid := false
            message := some ("error: " ++ ("cannot convert response: " ++ e)) })
    ∧ (∀ sstr res vr, self.settings_payload ser = .ok sstr →
        hostCall "validate_settings" sstr = .ok res →
        parseSettingsResponse res = .ok vr →
        self.validate_settings ser hostCall parseSettingsResponse = vr) := by
  refine ⟨?_, ?_, ?_, ?_, ?_⟩
  · intro h
    unfold PolicyEvaluator.settings_payload
    simp [h]
  · intro settings e h1 h2
    unfold PolicyEvaluator.validate_settings PolicyEvaluator.settings_payload
    simp [h1, h2]
  · intro sstr err h1 h2
    unfold PolicyEvaluator.validate_settings
    simp [h1, h2]
  · intro sstr res e h1 h2 h3
    unfold PolicyEvaluator.validate_settings
    simp [h1, h2, h3, Except.mapError]
  · intro sstr res vr h1 h2 h3
    unfold PolicyEvaluator.validate_settings
    simp [h1, h2, h3, Except.mapError]

/-- Witness for C8: an evaluator without configured settings sends the empty
object, and a guest reporting valid true round-trips verbatim. -/
theorem validate_settings_spec_witness :
    PolicyEvaluator.settings_payload (fun _ => .ok "ignored") ⟨⟨1, none, none⟩⟩ =
      .ok "\x7b\x7d"
    ∧ (fun _ _ => Except.ok "resp" : String → String → Except String String)
        "validate_settings" "\x7b\x7d" = .ok "resp"
    ∧ (fun _ => Except.ok { valid := true, message := none } :
        String → Except String SettingsValidationResponse) "resp" =
      .ok { valid := true, message := none }
    ∧ PolicyEvaluator.validate_settings (fun _ => .ok "ignored")
        (fun _ _ => .ok "resp") (fun _ => .ok { valid := true, message := none })
        ⟨⟨1, none, none⟩⟩ = { valid := true, message := none } := by
  have h := validate_settings_spec (fun _ => .ok "ignored") (fun _ _ => .ok "resp")
    (fun _ => .ok { valid := true, message := none }) ⟨⟨1, none, none⟩⟩
  exact ⟨h.1 rfl, rfl, rfl,
    h.2.2.2.2 "\x7b\x7d" "resp" { valid := true, message := none }
      (h.1 rfl) rfl rfl⟩

/-- Claim C9: protocol_version consults the transport only at the
protocol_version export with the empty payload; a transport failure and a
parse failure both produce a descriptive error, with no fallback value. -/
theorem protocol_version_spec {P : Type}
    (hostCall : String → String → Except String String)
    (tryFromBytes : String → Except String P) (self : PolicyEvaluator) :
    (∀ hostCall2 : String → String → Except String String,
      hostCall "protocol_version" "" = hostCall2 "protocol_version" "" →
      self.protocol_version hostCall tryFromBytes =
        self.protocol_version hostCall2 tryFromBytes)
    ∧ (∀ err, hostCall "protocol_version" "" = .error err →
        self.protocol_version hostCall tryFromBytes =
          .error ("Cannot invoke protocol_version waPC function: " ++ err))
    ∧ (∀ res e, hostCall "protocol_version" "" = .ok res →
        tryFromBytes res = .error e →
        self.protocol_version hostCall tryFromBytes =
          .error ("Cannot create ProtocolVersion object from " ++ res ++ ": " ++ e)) := by
  refine ⟨?_, ?_, ?_⟩
  · intro hostCall2 h
    unfold PolicyEvaluator.protocol_version
    rw [h]
  · intro err h
    unfold PolicyEvaluator.protocol_version
    simp [h]
  · intro res e h1 h2
    unfold PolicyEvaluator.protocol_version
    simp [h1, h2, Except.mapError]

/-- Witness for C9: a transport that returns unparsable bytes fails with the
descriptive parse error. -/
theorem protocol_version_spec_witness :
    (fun _ _ => Except.ok "junk" : String → String → Except String String)
        "protocol_version" "" = .ok "junk"
    ∧ (fun _ => Except.error "bad version" : String → Except String Nat) "junk" =
      .error "bad version"
    ∧ PolicyEvaluator.protocol_version (fun _ _ => .ok "junk")
        (fun _ => Except.error "bad version" : String → Except String Nat)
        ⟨⟨1, none, none⟩⟩ =
      .error ("Cannot create ProtocolVersion object from " ++ "junk" ++ ": " ++
        "bad version") := by
  refine ⟨rfl, rfl, ?_⟩
  exact (protocol_version_spec (fun _ _ => .ok "junk")
    (fun _ => Except.error "bad version" : String → Except String Nat)
    ⟨⟨1, none, none⟩⟩).2.2 "junk" "bad version" rfl rfl

/-- Claim C10: validate_settings and protocol_version leave every registry
entry unchanged; the registry is written by construction
(from_contents_internal inserts the new context) and at the start of
validate, whose whole registry effect is the one insert under the
evaluator's own handle. -/
theorem registry_only_written_by_construction_and_validate {V P : Type}
    (serS : List (String × Json) → Except String String)
    (hostCallS : String → String → Except String String)
    (parseS : String → Except String SettingsValidationResponse)
    (hostCallP : String → String → Except String String)
    (tryFromBytes : String → Except String P)
    (ser : Json → Except String String)
    (hostCall : String → String → Except String String)
    (parseResponse : String → Except String V)
    (shapeResponse : String → Json → V → Except String ValidationResponse)
    (self : PolicyEvaluator) (registry : Registry) (request : ValidateRequest)
    (h : Nat) :
    (self.validate_settingsS serS hostCallS parseS registry).2 h = registry h
    ∧ (self.protocol_versionS hostCallP tryFromBytes registry).2 h = registry h
    ∧ (self.validate ser hostCall parseResponse shapeResponse registry
        request).registry =
      registry.insert self.policy.wapc_policy_id
        { self.policy with request_uid := some (ValidateRequest.uid request) } := by
  exact ⟨rfl, rfl,
    validate_registry_eq ser hostCall parseResponse shapeResponse self registry
      request⟩

end PolicyEval
